import Mathlib

/-
Verification of the client-side session state machine of the interactive
terminal (src/plugins/claude-code-team-plugin/tutorial/src/components/
Terminal/InteractiveTerminal.tsx) together with the Redux tutorial slice
(src/unnamed/part_001).

The slice present under src (part_001) provides addTerminalMessage,
setAiTyping and clearTerminal.  The streaming and permission reducers
(appendStreamingText, clearStreamingText, finalizeStreaming,
setPermissionPrompt, clearPermissionPrompt) are imported by
InteractiveTerminal.tsx but their defining slice revision is not under
src; those five reducers are modelled from the specification (spec.md
sections 3, 4.2, 4.4 and 4.5) and are marked as such below.
-/

namespace TutorialClient

/-- Transcript entry kinds, from the slice: 'user' | 'ai' | 'system'. -/
inductive MsgKind where
  | user
  | ai
  | system
deriving DecidableEq, Repr

/-- One terminalHistory element: the dispatched payload plus the
Date.now() timestamp added by the addTerminalMessage reducer. -/
structure Entry where
  kind : MsgKind
  content : String
  timestamp : Nat
deriving DecidableEq, Repr

/-- Permission choices sent by handlePermissionResponse: y | n | a. -/
inductive Choice where
  | y
  | n
  | a
deriving DecidableEq, Repr

/-- Outbound WebSocket messages produced by the component. -/
inductive OutMsg where
  | command (content : String)
  | permission_response (choice : Choice)
  | ping
deriving DecidableEq, Repr

/-- The session state visible to the terminal component: the Redux
fields it reads/writes (terminalHistory, streamingText, isStreaming,
permissionPrompt, isAiTyping), the component-local isConnected flag,
and the log of messages sent over the socket. -/
structure SessionState where
  terminalHistory : List Entry
  streamingText : String
  isStreaming : Bool
  permissionPrompt : Option String
  isAiTyping : Bool
  isConnected : Bool
  sent : List OutMsg
deriving DecidableEq, Repr

/-- Initial state: empty history, no streaming, no prompt, not typing,
not connected, nothing sent (slice initialState plus component mount). -/
def initialState : SessionState :=
  { terminalHistory := []
    streamingText := ""
    isStreaming := false
    permissionPrompt := none
    isAiTyping := false
    isConnected := false
    sent := [] }

/-- addTerminalMessage reducer (src/unnamed/part_001, lines 97-105):
pushes the payload onto terminalHistory with a Date.now() timestamp,
passed here as `now`. -/
def addTerminalMessage (kind : MsgKind) (content : String) (now : Nat)
    (s : SessionState) : SessionState :=
  { s with terminalHistory := s.terminalHistory ++ [⟨kind, content, now⟩] }

/-- setAiTyping reducer (src/unnamed/part_001, lines 109-111). -/
def setAiTyping (b : Bool) (s : SessionState) : SessionState :=
  { s with isAiTyping := b }

/-- clearTerminal reducer (src/unnamed/part_001, lines 112-114):
the only operation that empties terminalHistory. -/
def clearTerminal (s : SessionState) : SessionState :=
  { s with terminalHistory := [] }

/-- Modelled from the spec: the appendStreamingText reducer is imported
by InteractiveTerminal.tsx but absent from src.  Spec 4.2: append
concatenates the fragment to the buffer text in arrival order; start()
(text := "", active := true) is called implicitly before a
content-bearing event if the buffer is not already active. -/
def appendStreamingText (c : String) (s : SessionState) : SessionState :=
  { s with
    streamingText := (if s.isStreaming then s.streamingText else "") ++ c
    isStreaming := true }

/-- Modelled from the spec: the clearStreamingText reducer is absent
from src.  Spec 3 (StreamingBuffer): the buffer is reset to
empty/inactive whenever a new turn begins; dispatched on typing_start
and after a permission decision (fresh turn). -/
def clearStreamingText (s : SessionState) : SessionState :=
  { s with streamingText := "", isStreaming := false }

/-- Modelled from the spec: the finalizeStreaming reducer is absent
from src.  Spec 4.2: finalize returns the accumulated text when the
buffer is active and non-empty, none otherwise; spec 4.5 (tool_use and
response_complete rows): a non-none result is appended as an agent
transcript entry; spec 3: the buffer is reset to empty/inactive
whenever a turn finalizes.  This matches the component's own header
doc: "response_complete finalizes them into history". -/
def finalizeStreaming (now : Nat) (s : SessionState) : SessionState :=
  { s with
    terminalHistory :=
      if s.isStreaming = true ∧ s.streamingText ≠ "" then
        s.terminalHistory ++ [⟨MsgKind.ai, s.streamingText, now⟩]
      else s.terminalHistory
    streamingText := ""
    isStreaming := false }

/-- Modelled from the spec: the setPermissionPrompt reducer is absent
from src.  Spec 4.4 setPending: stores the prompt, replacing any
existing pending request. -/
def setPermissionPrompt (c : String) (s : SessionState) : SessionState :=
  { s with permissionPrompt := some c }

/-- Modelled from the spec: the clearPermissionPrompt reducer is absent
from src.  Spec 4.4 clear: forces the pending request back to none. -/
def clearPermissionPrompt (s : SessionState) : SessionState :=
  { s with permissionPrompt := none }

/-- Inbound event types of the wire protocol (component header doc and
the ws.onmessage switch).  `unknown` stands for any well-formed frame
whose type matches no case of the switch; pong likewise has no case. -/
inductive Event where
  | stream_chunk (content : String)
  | tool_use (content : String)
  | tool_result (content : String)
  | permission_prompt (content : String)
  | response_complete
  | typing_start
  | typing_end
  | ai_response (content : String)
  | pong
  | unknown
deriving DecidableEq, Repr

/-- The ws.onmessage switch of InteractiveTerminal.tsx (lines 75-116):
dispatches, in source order, the reducers for each recognized event
type; events with no case leave the state untouched. -/
def handleEvent (e : Event) (now : Nat) (s : SessionState) : SessionState :=
  match e with
  | .stream_chunk c => appendStreamingText c s
  | .tool_use c => addTerminalMessage .ai c now (finalizeStreaming now s)
  | .tool_result c => addTerminalMessage .system c now s
  | .permission_prompt c => setAiTyping false (setPermissionPrompt c s)
  | .response_complete =>
      clearPermissionPrompt (setAiTyping false (finalizeStreaming now s))
  | .typing_start => clearStreamingText (setAiTyping true s)
  | .typing_end => setAiTyping false s
  | .ai_response c =>
      addTerminalMessage .ai c now (finalizeStreaming now (setAiTyping false s))
  | .pong => s
  | .unknown => s

/-- An inbound transport frame: either well-formed JSON decoding to an
event, or a payload JSON.parse throws on. -/
inductive Frame where
  | valid (e : Event)
  | malformed
deriving DecidableEq, Repr

/-- The whole ws.onmessage handler (lines 72-117).  JSON.parse is the
first statement and is not wrapped in any try/catch inside the handler,
so a malformed frame throws before any dispatch runs: the state is
returned unchanged and the Bool records that an exception escaped the
handler. -/
def onmessage (f : Frame) (now : Nat) (s : SessionState) :
    SessionState × Bool :=
  match f with
  | .malformed => (s, true)
  | .valid e => (handleEvent e now s, false)

/-- The system entry content appended by ws.onclose. -/
def disconnectNotice : String :=
  "❌ Connection to Claude Code lost. Please restart the tutorial."

/-- The system entry content appended by ws.onopen. -/
def connectNotice : String :=
  "🔗 Connected to Claude Code! Type your command below."

/-- ws.onclose handler (lines 119-127): setIsConnected(false), then
dispatches finalizeStreaming, clearPermissionPrompt and the disconnect
system message, in that order, on every invocation. -/
def onclose (now : Nat) (s : SessionState) : SessionState :=
  addTerminalMessage .system disconnectNotice now
    (clearPermissionPrompt
      (finalizeStreaming now { s with isConnected := false }))

/-- ws.onopen handler (lines 64-70). -/
def onopen (now : Nat) (s : SessionState) : SessionState :=
  addTerminalMessage .system connectNotice now { s with isConnected := true }

/-- The whitespace class stripped by JavaScript String.prototype.trim:
ECMAScript WhiteSpace (TAB U+0009, VT U+000B, FF U+000C, SP U+0020,
NBSP U+00A0, ZWNBSP/BOM U+FEFF and the Unicode space separators
U+1680, U+2000-U+200A, U+202F, U+205F, U+3000) plus LineTerminator
(LF U+000A, CR U+000D, LS U+2028, PS U+2029). -/
def isJsWhitespace (c : Char) : Bool :=
  c.val == 0x09 || c.val == 0x0A || c.val == 0x0B || c.val == 0x0C ||
  c.val == 0x0D || c.val == 0x20 || c.val == 0xA0 || c.val == 0x1680 ||
  (decide (0x2000 ≤ c.val) && decide (c.val ≤ 0x200A)) ||
  c.val == 0x2028 || c.val == 0x2029 || c.val == 0x202F || c.val == 0x205F ||
  c.val == 0x3000 || c.val == 0xFEFF

/-- JavaScript String.prototype.trim: removes leading and trailing
characters of the ECMAScript whitespace class.  Implemented
structurally over the character list so that it evaluates on concrete
inputs. -/
def jsTrim (s : String) : String :=
  ⟨((s.data.dropWhile isJsWhitespace).reverse.dropWhile
      isJsWhitespace).reverse⟩

/-- handleSubmit (lines 145-162): returns early when the trimmed input
is empty; otherwise appends the trimmed input as a user entry and, when
the socket is open, sends a command message with the trimmed input and
marks the agent typing.  When the socket is not open,
handleDemoResponse only schedules delayed dispatches via setTimeout;
no further synchronous state change occurs in the submit transition. -/
def handleSubmit (input : String) (now : Nat) (s : SessionState) :
    SessionState :=
  if jsTrim input = "" then s
  else
    let s1 := addTerminalMessage .user (jsTrim input) now s
    if s1.isConnected then
      setAiTyping true
        { s1 with sent := s1.sent ++ [OutMsg.command (jsTrim input)] }
    else s1

/-- handlePermissionResponse (lines 164-171): whenever the socket is
open it sends a permission_response with the chosen option — there is
no check that a prompt is pending — then dispatches
clearPermissionPrompt, setAiTyping(true) and clearStreamingText
unconditionally. -/
def handlePermissionResponse (choice : Choice) (s : SessionState) :
    SessionState :=
  clearStreamingText (setAiTyping true (clearPermissionPrompt
    (if s.isConnected then
      { s with sent := s.sent ++ [OutMsg.permission_response choice] }
    else s)))

/-- One user- or transport-level step of the session. -/
inductive Action where
  | frame (f : Frame)
  | submit (input : String)
  | decide (choice : Choice)
  | close
  | connect
deriving DecidableEq, Repr

/-- Applies one action at a given wall-clock time. -/
def applyAction (a : Action) (now : Nat) (s : SessionState) : SessionState :=
  match a with
  | .frame f => (onmessage f now s).1
  | .submit i => handleSubmit i now s
  | .decide c => handlePermissionResponse c s
  | .close => onclose now s
  | .connect => onopen now s

/-- Runs a timed sequence of actions from a state. -/
def run : List (Nat × Action) → SessionState → SessionState
  | [], s => s
  | (t, a) :: l, s => run l (applyAction a t s)

/-- Runs a timed sequence of inbound events from a state. -/
def runEvents : List (Nat × Event) → SessionState → SessionState
  | [], s => s
  | (t, e) :: l, s => runEvents l (handleEvent e t s)

/-- The stream_chunk events for a timed list of fragments. -/
def chunkEvents (ps : List (Nat × String)) : List (Nat × Event) :=
  ps.map (fun p => (p.1, Event.stream_chunk p.2))

/-- Concatenation of a list of fragments in order. -/
def concatAll : List String → String
  | [] => ""
  | c :: cs => c ++ concatAll cs

/-- The stream_chunk actions for a timed list of fragments. -/
def chunkActions (ps : List (Nat × String)) : List (Nat × Action) :=
  ps.map (fun p => (p.1, Action.frame (Frame.valid (Event.stream_chunk p.2))))

/-- The boundary events of the glossary: the occurrences that force
finalization of the streaming buffer — tool_use, response_complete,
legacy ai_response, and disconnect. -/
inductive Boundary where
  | tool_use (content : String)
  | response_complete
  | ai_response (content : String)
  | disconnect
deriving DecidableEq, Repr

/-- The session action that delivers a boundary: the three boundary
events arrive as frames, disconnect as the transport close. -/
def boundaryAction : Boundary → Action
  | .tool_use c => .frame (.valid (.tool_use c))
  | .response_complete => .frame (.valid (.response_complete))
  | .ai_response c => .frame (.valid (.ai_response c))
  | .disconnect => .close

/-- The entries each boundary appends after the finalized entry. -/
def boundaryExtra (b : Boundary) (t : Nat) : List Entry :=
  match b with
  | .tool_use c => [⟨MsgKind.ai, c, t⟩]
  | .response_complete => []
  | .ai_response c => [⟨MsgKind.ai, c, t⟩]
  | .disconnect => [⟨MsgKind.system, disconnectNotice, t⟩]

/-- The render condition of the typing indicator (line 289 of the
component): isAiTyping && !isStreaming && !permissionPrompt, where the
prompt is truthy exactly when it is present and non-empty. -/
def permissionPromptTruthy (s : SessionState) : Bool :=
  match s.permissionPrompt with
  | none => false
  | some c => c ≠ ""

/-- Whether the TypingIndicator is rendered (line 289). -/
def typingIndicatorShown (s : SessionState) : Bool :=
  s.isAiTyping && !s.isStreaming && !(permissionPromptTruthy s)

/-- Number of system-kind disconnect entries in the transcript. -/
def disconnectEntryCount (s : SessionState) : Nat :=
  (s.terminalHistory.filter
    (fun e => e.kind == MsgKind.system && e.content == disconnectNotice)).length

/- ### Helper lemmas -/

theorem runEvents_append (l₁ l₂ : List (Nat × Event)) (s : SessionState) :
    runEvents (l₁ ++ l₂) s = runEvents l₂ (runEvents l₁ s) := by
  induction l₁ generalizing s with
  | nil => rfl
  | cons p l ih =>
    obtain ⟨t, e⟩ := p
    simp [runEvents, ih]

theorem chunks_accumulate (ps : List (Nat × String)) :
    ∀ s : SessionState, s.isStreaming = true →
    runEvents (chunkEvents ps) s =
      { s with streamingText := s.streamingText ++ concatAll (ps.map Prod.snd) } := by
  induction ps with
  | nil =>
    intro s h
    simp [chunkEvents, runEvents, concatAll, String.append_empty]
  | cons p l ih =>
    intro s h
    obtain ⟨t, c⟩ := p
    show runEvents (chunkEvents l) (appendStreamingText c s) = _
    rw [appendStreamingText]
    simp only [h, if_true]
    rw [ih _ rfl]
    cases s
    simp_all [concatAll, String.append_assoc]

theorem run_append (l₁ l₂ : List (Nat × Action)) (s : SessionState) :
    run (l₁ ++ l₂) s = run l₂ (run l₁ s) := by
  induction l₁ generalizing s with
  | nil => rfl
  | cons p l ih =>
    obtain ⟨t, a⟩ := p
    simp [run, ih]

theorem run_chunkActions (ps : List (Nat × String)) (s : SessionState) :
    run (chunkActions ps) s = runEvents (chunkEvents ps) s := by
  induction ps generalizing s with
  | nil => rfl
  | cons p l ih =>
    obtain ⟨t, c⟩ := p
    exact ih _

/-- A typing_start followed by a non-empty chunk sequence leaves the
buffer active, holding the concatenation of the fragments, and the
transcript untouched. -/
theorem typing_start_chunks (s : SessionState) (t₀ t₁ : Nat) (c : String)
    (l : List (Nat × String)) :
    runEvents (chunkEvents ((t₁, c) :: l)) (handleEvent Event.typing_start t₀ s)
      = { s with isAiTyping := true, isStreaming := true,
                 streamingText := concatAll (((t₁, c) :: l).map Prod.snd) } := by
  show runEvents (chunkEvents l)
      (appendStreamingText c (clearStreamingText (setAiTyping true s))) = _
  rw [chunks_accumulate l _ rfl]
  cases s
  simp [appendStreamingText, clearStreamingText, setAiTyping, concatAll,
    String.empty_append]

/-- The streaming buffer of a reachable state is empty whenever it is
inactive (spec 3: the buffer is always either empty or fully folded
into a transcript entry): the property holds initially and is preserved
by every action. -/
theorem buffer_empty_of_inactive_preserved (a : Action) (t : Nat)
    (s : SessionState) (h : s.isStreaming = false → s.streamingText = "") :
    (applyAction a t s).isStreaming = false →
      (applyAction a t s).streamingText = "" := by
  cases a with
  | frame f =>
    cases f with
    | malformed => exact h
    | valid e =>
      cases e <;>
        simp_all [applyAction, onmessage, handleEvent, appendStreamingText,
          addTerminalMessage, finalizeStreaming, setAiTyping,
          setPermissionPrompt, clearPermissionPrompt, clearStreamingText]
  | submit i =>
    simp only [applyAction, handleSubmit]
    split
    · exact h
    · split <;> simp_all [addTerminalMessage, setAiTyping]
  | decide c =>
    simp [applyAction, handlePermissionResponse, clearStreamingText,
      setAiTyping, clearPermissionPrompt]
  | close =>
    simp [applyAction, onclose, addTerminalMessage, clearPermissionPrompt,
      finalizeStreaming]
  | connect => simp_all [applyAction, onopen, addTerminalMessage]

/- ### Claims -/

/-- C1: for every sequence of stream_chunk events received after a
typing_start and before the next boundary event (tool_use,
response_complete, ai_response, or disconnect), the transcript entry
produced by finalization has text equal to the concatenation of the
chunks' contents in arrival order; the boundary's own entries follow
it. -/
theorem C1_stream_chunks_concatenate (s : SessionState) (t₀ tb : Nat)
    (ps : List (Nat × String)) (b : Boundary)
    (h : concatAll (ps.map Prod.snd) ≠ "") :
    (run ((t₀, Action.frame (Frame.valid Event.typing_start)) ::
        (chunkActions ps ++ [(tb, boundaryAction b)])) s).terminalHistory
      = s.terminalHistory
          ++ ⟨MsgKind.ai, concatAll (ps.map Prod.snd), tb⟩
            :: boundaryExtra b tb := by
  cases ps with
  | nil => exact absurd rfl h
  | cons p l =>
    obtain ⟨t₁, c⟩ := p
    show (run (chunkActions ((t₁, c) :: l) ++ [(tb, boundaryAction b)])
        (handleEvent Event.typing_start t₀ s)).terminalHistory = _
    rw [run_append, run_chunkActions, typing_start_chunks]
    have h' : concatAll (c :: l.map Prod.snd) ≠ "" := h
    cases b <;>
      simp [run, applyAction, boundaryAction, boundaryExtra, onmessage,
        handleEvent, onclose, addTerminalMessage, finalizeStreaming,
        setAiTyping, clearPermissionPrompt, h']

/-- C1 witness: the spec scenario typing_start, "Hel", "lo" finalized
by response_complete appends exactly one agent entry "Hello"; the
same chunks finalized by a disconnect are flushed as "Hello" before
the disconnect system entry. -/
theorem C1_witness :
    concatAll (([(1, "Hel"), (2, "lo")] : List (Nat × String)).map Prod.snd) ≠ "" ∧
    (run ((0, Action.frame (Frame.valid Event.typing_start)) ::
        (chunkActions [(1, "Hel"), (2, "lo")]
          ++ [(3, boundaryAction Boundary.response_complete)]))
        initialState).terminalHistory
      = [⟨MsgKind.ai, "Hello", 3⟩] ∧
    (run ((0, Action.frame (Frame.valid Event.typing_start)) ::
        (chunkActions [(1, "Hel"), (2, "lo")]
          ++ [(3, boundaryAction Boundary.disconnect)]))
        initialState).terminalHistory
      = [⟨MsgKind.ai, "Hello", 3⟩, ⟨MsgKind.system, disconnectNotice, 3⟩] :=
  ⟨by decide,
   C1_stream_chunks_concatenate initialState 0 3 [(1, "Hel"), (2, "lo")]
     Boundary.response_complete (by decide),
   C1_stream_chunks_concatenate initialState 0 3 [(1, "Hel"), (2, "lo")]
     Boundary.disconnect (by decide)⟩

/-- C2: for every state whose inactive buffer is empty (true of all
reachable states), response_complete leaves no pending prompt, the
agent not busy, and the buffer inactive and empty; it appends the
accumulated text as one agent entry when non-empty and nothing from
the buffer when empty. -/
theorem C2_response_complete (s : SessionState) (t : Nat)
    (hb : s.isStreaming = false → s.streamingText = "") :
    (handleEvent Event.response_complete t s).permissionPrompt = none ∧
    (handleEvent Event.response_complete t s).isAiTyping = false ∧
    (handleEvent Event.response_complete t s).isStreaming = false ∧
    (handleEvent Event.response_complete t s).streamingText = "" ∧
    (s.streamingText ≠ "" →
      (handleEvent Event.response_complete t s).terminalHistory
        = s.terminalHistory ++ [⟨MsgKind.ai, s.streamingText, t⟩]) ∧
    (s.streamingText = "" →
      (handleEvent Event.response_complete t s).terminalHistory
        = s.terminalHistory) := by
  refine ⟨rfl, rfl, rfl, rfl, ?_, ?_⟩ <;> intro h
  · have hs : s.isStreaming = true := by
      cases hs : s.isStreaming
      · exact absurd (hb hs) h
      · rfl
    simp [handleEvent, clearPermissionPrompt, setAiTyping, finalizeStreaming,
      hs, h]
  · simp [handleEvent, clearPermissionPrompt, setAiTyping, finalizeStreaming, h]

/-- C2 witness: from a state streaming "Hello", response_complete
clears the prompt and busy flag, empties the buffer, and appends one
agent entry "Hello". -/
theorem C2_witness :
    (handleEvent Event.response_complete 5
      ⟨[], "Hello", true, none, true, true, []⟩).permissionPrompt = none ∧
    (handleEvent Event.response_complete 5
      ⟨[], "Hello", true, none, true, true, []⟩).isAiTyping = false ∧
    (handleEvent Event.response_complete 5
      ⟨[], "Hello", true, none, true, true, []⟩).isStreaming = false ∧
    (handleEvent Event.response_complete 5
      ⟨[], "Hello", true, none, true, true, []⟩).streamingText = "" ∧
    (handleEvent Event.response_complete 5
      ⟨[], "Hello", true, none, true, true, []⟩).terminalHistory
      = [⟨MsgKind.ai, "Hello", 5⟩] := by
  have h := C2_response_complete ⟨[], "Hello", true, none, true, true, []⟩ 5
    (by decide)
  exact ⟨h.1, h.2.1, h.2.2.1, h.2.2.2.1, h.2.2.2.2.1 (by decide)⟩

/-- C3 counterexample: the state reached from the initial state by the
inbound sequence permission_prompt "rm?" then typing_start has a
pending permission request and the agent-busy flag set simultaneously,
so invariant I2 does not hold in every reachable state. -/
theorem C3_counterexample :
    (run [(1, Action.frame (Frame.valid (Event.permission_prompt "rm?"))),
          (2, Action.frame (Frame.valid Event.typing_start))]
        initialState).permissionPrompt = some "rm?" ∧
    (run [(1, Action.frame (Frame.valid (Event.permission_prompt "rm?"))),
          (2, Action.frame (Frame.valid Event.typing_start))]
        initialState).isAiTyping = true :=
  ⟨rfl, rfl⟩

/-- C3 amended: processing a permission_prompt event always leaves the
prompt pending with the busy flag false, and the presentation never
renders the typing indicator while a non-empty prompt is pending; the
state-level conjunction ban is not preserved by later events such as
typing_start. -/
theorem C3_amended (s : SessionState) (c : String) (t : Nat) :
    (handleEvent (Event.permission_prompt c) t s).permissionPrompt = some c ∧
    (handleEvent (Event.permission_prompt c) t s).isAiTyping = false ∧
    (permissionPromptTruthy s = true → typingIndicatorShown s = false) := by
  refine ⟨rfl, rfl, ?_⟩
  intro h
  simp [typingIndicatorShown, h]

/-- C3 amended witness: concrete instance at a state with a pending
non-empty prompt and the busy flag set. -/
theorem C3_amended_witness :
    (handleEvent (Event.permission_prompt "rm?") 4
      ⟨[], "", false, some "rm?", true, true, []⟩).permissionPrompt = some "rm?" ∧
    (handleEvent (Event.permission_prompt "rm?") 4
      ⟨[], "", false, some "rm?", true, true, []⟩).isAiTyping = false ∧
    typingIndicatorShown ⟨[], "", false, some "rm?", true, true, []⟩ = false := by
  have h := C3_amended ⟨[], "", false, some "rm?", true, true, []⟩ "rm?" 4
  exact ⟨h.1, h.2.1, h.2.2 (by decide)⟩

/-- C4: a tool_use event received while the streaming buffer is active
and non-empty appends exactly two agent entries in order — the
finalized streamed text, then the tool_use payload; received while the
buffer is inactive or empty it appends exactly one entry. -/
theorem C4_tool_use_entries (s : SessionState) (c : String) (t : Nat) :
    (s.isStreaming = true ∧ s.streamingText ≠ "" →
      (handleEvent (Event.tool_use c) t s).terminalHistory
        = s.terminalHistory
            ++ [⟨MsgKind.ai, s.streamingText, t⟩, ⟨MsgKind.ai, c, t⟩]) ∧
    (s.isStreaming = false ∨ s.streamingText = "" →
      (handleEvent (Event.tool_use c) t s).terminalHistory
        = s.terminalHistory ++ [⟨MsgKind.ai, c, t⟩]) := by
  constructor <;> intro h
  · simp [handleEvent, addTerminalMessage, finalizeStreaming, h]
  · rcases h with h | h <;>
      simp [handleEvent, addTerminalMessage, finalizeStreaming, h]

/-- C4 witness: with buffer "thinking" a tool_use appends two entries;
from the initial state it appends one. -/
theorem C4_witness :
    (handleEvent (Event.tool_use "Run ls") 9
        ⟨[], "thinking", true, none, true, true, []⟩).terminalHistory
      = [⟨MsgKind.ai, "thinking", 9⟩, ⟨MsgKind.ai, "Run ls", 9⟩] ∧
    (handleEvent (Event.tool_use "Run ls") 9 initialState).terminalHistory
      = [⟨MsgKind.ai, "Run ls", 9⟩] := by
  have h1 := C4_tool_use_entries ⟨[], "thinking", true, none, true, true, []⟩
    "Run ls" 9
  have h2 := C4_tool_use_entries initialState "Run ls" 9
  exact ⟨h1.1 (by decide), h2.2 (Or.inl rfl)⟩

/-- C5 counterexample: a legacy ai_response "done" arriving while the
buffer holds the non-empty text "partial" appends two agent entries —
the partial text is finalized into the transcript, not discarded —
refuting the claim that exactly one entry is appended. -/
theorem C5_counterexample :
    (handleEvent (Event.ai_response "done") 7
        ⟨[], "partial", true, none, true, true, []⟩).terminalHistory
      = [⟨MsgKind.ai, "partial", 7⟩, ⟨MsgKind.ai, "done", 7⟩] := rfl

/-- C5 amended: a legacy ai_response received while the buffer is
active and non-empty first finalizes the partial text into its own
agent entry and then appends the payload as a second agent entry;
with an inactive or empty buffer exactly one entry is appended; in all
cases the busy flag ends false and the buffer inactive and empty. -/
theorem C5_amended (s : SessionState) (c : String) (t : Nat) :
    (s.isStreaming = true ∧ s.streamingText ≠ "" →
      (handleEvent (Event.ai_response c) t s).terminalHistory
        = s.terminalHistory
            ++ [⟨MsgKind.ai, s.streamingText, t⟩, ⟨MsgKind.ai, c, t⟩]) ∧
    (s.isStreaming = false ∨ s.streamingText = "" →
      (handleEvent (Event.ai_response c) t s).terminalHistory
        = s.terminalHistory ++ [⟨MsgKind.ai, c, t⟩]) ∧
    (handleEvent (Event.ai_response c) t s).isAiTyping = false ∧
    (handleEvent (Event.ai_response c) t s).isStreaming = false ∧
    (handleEvent (Event.ai_response c) t s).streamingText = "" := by
  refine ⟨?_, ?_, rfl, rfl, rfl⟩ <;> intro h
  · simp [handleEvent, addTerminalMessage, finalizeStreaming, setAiTyping, h]
  · rcases h with h | h <;>
      simp [handleEvent, addTerminalMessage, finalizeStreaming, setAiTyping, h]

/-- C5 amended witness: concrete two-entry and one-entry instances. -/
theorem C5_amended_witness :
    (handleEvent (Event.ai_response "done") 7
        ⟨[], "partial", true, none, true, true, []⟩).terminalHistory
      = [⟨MsgKind.ai, "partial", 7⟩, ⟨MsgKind.ai, "done", 7⟩] ∧
    (handleEvent (Event.ai_response "done") 7 initialState).terminalHistory
      = [⟨MsgKind.ai, "done", 7⟩] := by
  have h1 := C5_amended ⟨[], "partial", true, none, true, true, []⟩ "done" 7
  have h2 := C5_amended initialState "done" 7
  exact ⟨h1.1 (by decide), h2.2.1 (Or.inl rfl)⟩

/-- C6 counterexample: submitting a decision twice in succession while
the socket is open sends two outbound permission_response messages, and
a decision submitted with no pending request still sends a message and
sets the busy flag — refuting both the exactly-once and the
stale-decision-no-op parts of the claim. -/
theorem C6_counterexample :
    (handlePermissionResponse Choice.y (handlePermissionResponse Choice.y
        ⟨[], "", false, some "rm?", false, true, []⟩)).sent
      = [OutMsg.permission_response Choice.y,
         OutMsg.permission_response Choice.y] ∧
    (handlePermissionResponse Choice.y
        ⟨[], "", false, none, false, true, []⟩).sent
      = [OutMsg.permission_response Choice.y] ∧
    (handlePermissionResponse Choice.y
        ⟨[], "", false, none, false, true, []⟩).isAiTyping = true :=
  ⟨rfl, rfl, rfl⟩

/-- C6 amended: every invocation of handlePermissionResponse while the
socket is open sends exactly one outbound permission_response —
regardless of whether a prompt is pending — and unconditionally clears
the pending prompt, marks the agent busy, and resets the streaming
buffer; deduplication relies on the prompt card being unmounted after
the first decision, not on the handler. -/
theorem C6_amended (ch : Choice) (s : SessionState)
    (h : s.isConnected = true) :
    (handlePermissionResponse ch s).sent
      = s.sent ++ [OutMsg.permission_response ch] ∧
    (handlePermissionResponse ch s).permissionPrompt = none ∧
    (handlePermissionResponse ch s).isAiTyping = true ∧
    (handlePermissionResponse ch s).streamingText = "" ∧
    (handlePermissionResponse ch s).isStreaming = false := by
  simp [handlePermissionResponse, clearStreamingText, setAiTyping,
    clearPermissionPrompt, h]

/-- C6 amended witness: concrete decision on an open socket. -/
theorem C6_amended_witness :
    (handlePermissionResponse Choice.n
        ⟨[], "", false, some "rm?", false, true, []⟩).sent
      = [OutMsg.permission_response Choice.n] ∧
    (handlePermissionResponse Choice.n
        ⟨[], "", false, some "rm?", false, true, []⟩).permissionPrompt = none ∧
    (handlePermissionResponse Choice.n
        ⟨[], "", false, some "rm?", false, true, []⟩).isAiTyping = true := by
  have h := C6_amended Choice.n ⟨[], "", false, some "rm?", false, true, []⟩
    (by decide)
  exact ⟨h.1, h.2.1, h.2.2.1⟩

/-- C7 counterexample: if the close handler runs twice for a state
with a pending prompt, the transport-closed transition executes twice,
appending two disconnect system entries — the handler is not
idempotent, refuting the exactly-once-per-disconnect part of the
claim. -/
theorem C7_counterexample :
    (onclose 2 (onclose 1
        ⟨[], "", false, some "rm?", false, true, []⟩)).terminalHistory
      = [⟨MsgKind.system, disconnectNotice, 1⟩,
         ⟨MsgKind.system, disconnectNotice, 2⟩] := rfl

/-- C7 amended: each invocation of the close handler leaves no pending
prompt, marks the session disconnected, and appends exactly one
system-kind disconnect entry; exactly-once per disconnect holds only
because the transport fires close once, not because the handler is
idempotent. -/
theorem C7_amended (s : SessionState) (t : Nat) :
    (onclose t s).permissionPrompt = none ∧
    (onclose t s).isConnected = false ∧
    disconnectEntryCount (onclose t s) = disconnectEntryCount s + 1 := by
  refine ⟨rfl, rfl, ?_⟩
  simp only [disconnectEntryCount, onclose, addTerminalMessage,
    clearPermissionPrompt, finalizeStreaming]
  split <;> simp [List.filter_append]

/-- C8 counterexample: a malformed frame makes an exception escape the
onmessage handler — JSON.parse is not wrapped in a try/catch inside
the handler — refuting the claim that no error is raised past the
decoder boundary. -/
theorem C8_counterexample :
    (onmessage Frame.malformed 0 initialState).2 = true := rfl

/-- C8 amended: a frame raises out of the handler exactly when it is
malformed; whenever the handler raises, the session state is unchanged
(the parse throws before any dispatch runs); well-formed frames of
unrecognized type are ignored and change nothing. -/
theorem C8_amended (f : Frame) (t : Nat) (s : SessionState) :
    ((onmessage f t s).2 = true ↔ f = Frame.malformed) ∧
    ((onmessage f t s).2 = true → (onmessage f t s).1 = s) ∧
    onmessage (Frame.valid Event.unknown) t s = (s, false) := by
  cases f <;> simp [onmessage, handleEvent]

/-- C8 amended witness: concrete malformed frame at the initial
state. -/
theorem C8_witness :
    ((onmessage Frame.malformed 3 initialState).2 = true
      ↔ Frame.malformed = Frame.malformed) ∧
    (onmessage Frame.malformed 3 initialState).1 = initialState ∧
    onmessage (Frame.valid Event.unknown) 3 initialState
      = (initialState, false) := by
  have h := C8_amended Frame.malformed 3 initialState
  exact ⟨h.1, h.2.1 rfl, h.2.2⟩

/-- C9: the transcript is append-only under the protocol — processing
any inbound frame leaves the existing transcript as a prefix of the
new one (entries are neither mutated nor removed) — and the only
emptying operation is the explicit clearTerminal action, which no
protocol event dispatches. -/
theorem C9_transcript_append_only (f : Frame) (t : Nat) (s : SessionState) :
    s.terminalHistory <+: (onmessage f t s).1.terminalHistory ∧
    (clearTerminal s).terminalHistory = [] := by
  refine ⟨?_, rfl⟩
  cases f with
  | malformed => exact List.prefix_rfl
  | valid e =>
    cases e <;>
      simp only [onmessage, handleEvent, addTerminalMessage,
        finalizeStreaming, appendStreamingText, clearStreamingText,
        setAiTyping, setPermissionPrompt, clearPermissionPrompt]
    case stream_chunk c => exact List.prefix_rfl
    case tool_use c =>
      split <;> simp [List.append_assoc]
    case tool_result c => exact List.prefix_append _ _
    case permission_prompt c => exact List.prefix_rfl
    case response_complete =>
      split
      · exact List.prefix_append _ _
      · exact List.prefix_rfl
    case typing_start => exact List.prefix_rfl
    case typing_end => exact List.prefix_rfl
    case ai_response c =>
      split <;> simp [List.append_assoc]
    case pong => exact List.prefix_rfl
    case unknown => exact List.prefix_rfl

/-- C10: submitting an input whose trim is empty appends nothing,
sends nothing and changes no state; otherwise the appended user entry
carries the trimmed input and, exactly when the socket is open, one
command message with the trimmed input is sent. -/
theorem C10_handleSubmit (input : String) (t : Nat) (s : SessionState) :
    (jsTrim input = "" → handleSubmit input t s = s) ∧
    (jsTrim input ≠ "" →
      (handleSubmit input t s).terminalHistory
        = s.terminalHistory ++ [⟨MsgKind.user, jsTrim input, t⟩] ∧
      (s.isConnected = true →
        (handleSubmit input t s).sent
          = s.sent ++ [OutMsg.command (jsTrim input)]) ∧
      (s.isConnected = false →
        (handleSubmit input t s).sent = s.sent)) := by
  constructor
  · intro h
    simp [handleSubmit, h]
  · intro h
    refine ⟨?_, ?_, ?_⟩
    · simp only [handleSubmit, if_neg h]
      split <;> simp [addTerminalMessage, setAiTyping]
    · intro hc
      simp [handleSubmit, h, addTerminalMessage, setAiTyping, hc]
    · intro hc
      simp [handleSubmit, h, addTerminalMessage, setAiTyping, hc]

/-- C10 witness: a whitespace-only submission is a no-op — including
one padded with a vertical tab, which JavaScript trim strips — and a
padded command is appended and sent trimmed. -/
theorem C10_witness :
    handleSubmit "   " 3 initialState = initialState ∧
    handleSubmit "  \x0B  " 3 initialState = initialState ∧
    (handleSubmit "  ls  " 3
        ⟨[], "", false, none, false, true, []⟩).terminalHistory
      = [⟨MsgKind.user, "ls", 3⟩] ∧
    (handleSubmit "  ls  " 3
        ⟨[], "", false, none, false, true, []⟩).sent
      = [OutMsg.command "ls"] := by
  have h0 := C10_handleSubmit "  \x0B  " 3 initialState
  have h1 := C10_handleSubmit "   " 3 initialState
  have h2 := C10_handleSubmit "  ls  " 3 ⟨[], "", false, none, false, true, []⟩
  exact ⟨h1.1 (by decide), h0.1 (by decide), (h2.2 (by decide)).1,
    (h2.2 (by decide)).2.1 rfl⟩

end TutorialClient
